import Mathlib

/-!
Shallow embedding of the core of `backend/main.py` of the injury-prevention
decision-support service: the risk-scoring engine (`calculate_risk_and_advice`),
the deterministic coach fallback (`build_fallback_structured`), the
language-model adapter (`ollama_generate_structured`) and the coach
orchestrator (`ai_coach`).

Python integers are modelled as `Int`, the float field `sleep_hours` as `ℚ`
(all comparisons in the source are order comparisons against small integer
constants, which ℚ models exactly), Python `None`-returning functions as
`Option`-valued functions, and the two string enums as inductive types
carrying their literal string renderings.
-/

namespace InjuryDSS

/-- The `pain_location` literal enum of `AssessmentRequest`. -/
inductive PainLocation where
  | none | shoulder | wrist | elbow | knee | lower_back | other
  deriving DecidableEq, Repr

/-- The literal string value of a `pain_location`, as it appears in the JSON. -/
def PainLocation.str : PainLocation → String
  | .none => "none"
  | .shoulder => "shoulder"
  | .wrist => "wrist"
  | .elbow => "elbow"
  | .knee => "knee"
  | .lower_back => "lower_back"
  | .other => "other"

/-- The `experience_level` literal enum of `AssessmentRequest`. -/
inductive ExperienceLevel where
  | beginner | intermediate | advanced
  deriving DecidableEq, Repr

/-- The `risk_level` literal enum of `AssessmentResponse`. -/
inductive RiskLevel where
  | low | moderate | high
  deriving DecidableEq, Repr

/-- The literal string value of a `risk_level`. -/
def RiskLevel.str : RiskLevel → String
  | .low => "low"
  | .moderate => "moderate"
  | .high => "high"

/-- The upper-cased `risk_level` string, as produced by `.upper()` in the
fallback summary line. -/
def RiskLevel.upper : RiskLevel → String
  | .low => "LOW"
  | .moderate => "MODERATE"
  | .high => "HIGH"

/-- `AssessmentRequest` (pydantic model, lines 101-112 of `main.py`). -/
structure AssessmentRequest where
  training_days_per_week : Int
  session_minutes : Int
  rpe : Int
  weekly_sets : Int
  rest_days_per_week : Int
  sleep_hours : ℚ
  pain_score : Int
  pain_location : PainLocation
  experience_level : ExperienceLevel
  deriving DecidableEq, Repr

/-- The pydantic `Field(ge=…, le=…)` range constraints of `AssessmentRequest`;
a request that reaches the scoring engine always satisfies them. -/
def AssessmentRequest.Valid (req : AssessmentRequest) : Prop :=
  0 ≤ req.training_days_per_week ∧ req.training_days_per_week ≤ 7 ∧
  0 ≤ req.session_minutes ∧ req.session_minutes ≤ 300 ∧
  1 ≤ req.rpe ∧ req.rpe ≤ 10 ∧
  0 ≤ req.weekly_sets ∧ req.weekly_sets ≤ 300 ∧
  0 ≤ req.rest_days_per_week ∧ req.rest_days_per_week ≤ 7 ∧
  0 ≤ req.sleep_hours ∧ req.sleep_hours ≤ 16 ∧
  0 ≤ req.pain_score ∧ req.pain_score ≤ 10

instance (req : AssessmentRequest) : Decidable req.Valid := by
  unfold AssessmentRequest.Valid; infer_instance

/-- `AssessmentResponse` (lines 115-120 of `main.py`).  `score_breakdown` is
the Python dict, modelled as an association list in insertion order. -/
structure AssessmentResponse where
  risk_score : Int
  risk_level : RiskLevel
  top_factors : List String
  recommendations : List String
  score_breakdown : List (String × Int)
  deriving DecidableEq, Repr

/-! ### The risk model (`calculate_risk_and_advice`, lines 232-334)

The Python function accumulates `score`, `breakdown` and `factors` inside a
single `if`/`elif` chain per category; each chain is rendered here as one
points function and one factor-list function guarded by the same conditions,
so that the per-category contribution and its factor string stay in lock-step
exactly as in the source. -/

/-- Pain band points (lines 246-257): `pain_score ≥ 7 → 45`, `≥ 4 → 25`,
`≥ 1 → 10`, else `0`. -/
def painPoints (req : AssessmentRequest) : Int :=
  if req.pain_score ≥ 7 then 45
  else if req.pain_score ≥ 4 then 25
  else if req.pain_score ≥ 1 then 10
  else 0

/-- Pain factor string appended by the same chain as `painPoints`. -/
def painFactor (req : AssessmentRequest) : List String :=
  if req.pain_score ≥ 7 then ["High pain score reported (7+)."]
  else if req.pain_score ≥ 4 then ["Moderate pain score reported (4–6)."]
  else if req.pain_score ≥ 1 then ["Mild pain score reported (1–3)."]
  else []

/-- Volume band points (lines 260-267): `weekly_sets ≥ 120 → 20`, `≥ 80 → 12`. -/
def volumePoints (req : AssessmentRequest) : Int :=
  if req.weekly_sets ≥ 120 then 20
  else if req.weekly_sets ≥ 80 then 12
  else 0

/-- Volume factor string appended by the same chain as `volumePoints`. -/
def volumeFactor (req : AssessmentRequest) : List String :=
  if req.weekly_sets ≥ 120 then ["Very high weekly training volume (sets)."]
  else if req.weekly_sets ≥ 80 then ["High weekly training volume (sets)."]
  else []

/-- Intensity band points (lines 270-277): `rpe ≥ 9 → 18`, `≥ 7 → 10`. -/
def intensityPoints (req : AssessmentRequest) : Int :=
  if req.rpe ≥ 9 then 18
  else if req.rpe ≥ 7 then 10
  else 0

/-- Intensity factor string appended by the same chain as `intensityPoints`. -/
def intensityFactor (req : AssessmentRequest) : List String :=
  if req.rpe ≥ 9 then ["Very high intensity (RPE 9–10)."]
  else if req.rpe ≥ 7 then ["High intensity (RPE 7–8)."]
  else []

/-- Sleep band points (lines 280-287): `sleep_hours < 6 → 12`, `< 7 → 6`. -/
def sleepPoints (req : AssessmentRequest) : Int :=
  if req.sleep_hours < 6 then 12
  else if req.sleep_hours < 7 then 6
  else 0

/-- Sleep factor string appended by the same chain as `sleepPoints`. -/
def sleepFactor (req : AssessmentRequest) : List String :=
  if req.sleep_hours < 6 then ["Low sleep duration (<6 hours)."]
  else if req.sleep_hours < 7 then ["Below-optimal sleep duration (6–7 hours)."]
  else []

/-- Rest points (lines 290-293): `rest ≤ 1 ∧ training ≥ 5 → 10`. -/
def restPoints (req : AssessmentRequest) : Int :=
  if req.rest_days_per_week ≤ 1 ∧ req.training_days_per_week ≥ 5 then 10 else 0

/-- Rest factor string appended under the same condition as `restPoints`. -/
def restFactor (req : AssessmentRequest) : List String :=
  if req.rest_days_per_week ≤ 1 ∧ req.training_days_per_week ≥ 5 then
    ["Low rest relative to training frequency."]
  else []

/-- Experience adjustment points (lines 296-299): beginner with `rpe ≥ 8 → 8`. -/
def experiencePoints (req : AssessmentRequest) : Int :=
  if req.experience_level = .beginner ∧ req.rpe ≥ 8 then 8 else 0

/-- Experience factor string appended under the same condition as
`experiencePoints`. -/
def experienceFactor (req : AssessmentRequest) : List String :=
  if req.experience_level = .beginner ∧ req.rpe ≥ 8 then
    ["High intensity for beginner level."]
  else []

/-- The accumulated `factors` list just before truncation (evaluation order:
pain, volume, intensity, sleep, rest, experience). -/
def factorsList (req : AssessmentRequest) : List String :=
  painFactor req ++ volumeFactor req ++ intensityFactor req ++
  sleepFactor req ++ restFactor req ++ experienceFactor req

/-- The accumulated `score` just before the clamp at line 301. -/
def preClampScore (req : AssessmentRequest) : Int :=
  painPoints req + volumePoints req + intensityPoints req +
  sleepPoints req + restPoints req + experiencePoints req

/-- The sentinel substituted for an empty factor list (line 326). -/
def noFactorsSentinel : String :=
  "No major risk factors detected from provided inputs."

/-- The fallback recommendation appended when no gate fired (line 324). -/
def maintainRec : String :=
  "Maintain current plan; progress gradually and monitor discomfort."

/-- Python's `s.replace('_', ' ')` for the single-character pattern used at
line 314: every underscore becomes a space. -/
def replaceUnderscores (s : String) : String :=
  String.mk (s.data.map (fun c => if c = '_' then ' ' else c))

/-- The recommendation gates and strings (lines 310-322), appended in source
order; each gate is independent of the others. -/
def gatedRecommendations (req : AssessmentRequest) : List String :=
  (if req.pain_score ≥ 7 then
    ["Stop aggravating movements and consult a licensed clinician if pain persists or worsens."]
   else []) ++
  (if req.pain_location ≠ .none ∧ req.pain_score ≥ 4 then
    ["Reduce load on the " ++ replaceUnderscores req.pain_location.str ++
      " and prioritize technique."]
   else []) ++
  (if req.weekly_sets ≥ 80 then
    ["Reduce weekly volume by 10–25% for 1–2 weeks (deload) and reassess symptoms."]
   else []) ++
  (if req.rpe ≥ 8 then
    ["Lower intensity for 3–7 days (aim RPE 6–7) and avoid grinding reps."]
   else []) ++
  (if req.sleep_hours < 7 then
    ["Aim for 7–9 hours of sleep to improve recovery and reduce risk."]
   else []) ++
  (if req.rest_days_per_week ≤ 1 ∧ req.training_days_per_week ≥ 5 then
    ["Add 1 additional rest day this week to improve recovery capacity."]
   else [])

/-- The final `recs` list: the gated recommendations, or the maintenance
fallback when none fired (lines 323-324). -/
def recommendationsList (req : AssessmentRequest) : List String :=
  if gatedRecommendations req = [] then [maintainRec] else gatedRecommendations req

/-- `calculate_risk_and_advice` (lines 232-334): clamp the additive score to
`[0, 100]`, band it into a level at 35 and 70, truncate factors to three (or
substitute the sentinel), gate the recommendations, and report the
per-category breakdown. -/
def calculate_risk_and_advice (req : AssessmentRequest) : AssessmentResponse :=
  let score := max 0 (min 100 (preClampScore req))
  let level : RiskLevel :=
    if score ≥ 70 then .high
    else if score ≥ 35 then .moderate
    else .low
  let factors := factorsList req
  let top := if factors = [] then [noFactorsSentinel] else factors.take 3
  { risk_score := score
    risk_level := level
    top_factors := top
    recommendations := recommendationsList req
    score_breakdown :=
      [("pain", painPoints req), ("volume", volumePoints req),
       ("intensity", intensityPoints req), ("sleep", sleepPoints req),
       ("rest", restPoints req), ("experience", experiencePoints req)] }

/-! ### The coach fallback generator (`build_fallback_structured`, lines 340-391) -/

/-- `AICoachStructured` (lines 124-128).  `seven_day_plan` is the Python dict
`{"keep": …, "reduce": …, "add": …}`, modelled as an association list in
insertion order. -/
structure AICoachStructured where
  risk_level_summary : String
  top_drivers : List String
  seven_day_plan : List (String × List String)
  red_flags : List String
  deriving DecidableEq, Repr

/-- The three-way tier table at the top of `build_fallback_structured`
(lines 341-352): `(vol_cut, rpe_target, rest_note)` per risk level. -/
def tierParams : RiskLevel → String × String × String
  | .high => ("25–40%", "5–6", "Add 1–2 extra rest days this week")
  | .moderate => ("10–25%", "6–7", "Add 1 extra rest day if possible")
  | .low => ("0–10%", "6–8 (avoid frequent max effort)", "Keep current rest schedule")

/-- `build_fallback_structured` (lines 340-391): the deterministic coach plan
built from the tier table, the request's training days, sleep hours and pain
score, and the risk result's level, score and top factors. -/
def build_fallback_structured (req : AssessmentRequest) (resp : AssessmentResponse) :
    AICoachStructured :=
  let vol_cut := (tierParams resp.risk_level).1
  let rpe_target := (tierParams resp.risk_level).2.1
  let rest_note := (tierParams resp.risk_level).2.2
  let keep :=
    ["Warm-up 8–10 minutes + 2 light ramp-up sets for main lifts",
     "Technique-first reps; stop 1–3 reps before failure on most sets"]
  let reduce :=
    ["Reduce weekly sets by ~" ++ vol_cut,
     "Keep intensity around RPE " ++ rpe_target,
     "Avoid grinders, forced reps, and high-fatigue finishers"]
  let reduce :=
    if req.training_days_per_week ≥ 5 then
      reduce ++ ["Consider dropping 1 training day this week (temporarily)"]
    else reduce
  let add :=
    [rest_note,
     "Add 10 minutes mobility/activation after training (hips/shoulders/core)"]
  let add :=
    if req.sleep_hours < 7 then
      add.insertIdx 1 "Sleep goal: 7–9 hours (even +45–60 minutes helps)"
    else
      add.insertIdx 1 "Keep sleep consistent; avoid large late-night variability"
  let red_flags :=
    ["Pain rising session-to-session",
     "Sharp pain",
     "Numbness/tingling",
     "Pain that changes movement pattern",
     "If symptoms worsen despite deloading, seek professional evaluation"]
  let red_flags :=
    if req.pain_score ≥ 7 then
      red_flags.insertIdx 0
        "Pain is very high (7+): stop aggravating movements and consult a licensed clinician."
    else red_flags
  { risk_level_summary :=
      "Risk level: " ++ resp.risk_level.upper ++ " (score " ++
        toString resp.risk_score ++ "/100)."
    top_drivers := resp.top_factors.take 3
    seven_day_plan := [("keep", keep), ("reduce", reduce), ("add", add)]
    red_flags := red_flags }

/-! ### The language-model adapter (`ollama_generate_structured`, lines 397-464)

The adapter's only observable input beyond `(req, resp)` is the outcome of the
HTTP call to the text-generation service; `req` and `resp` only shape the
prompt, which the embedding does not need to reproduce.  The outcome is:
either the `requests.post`/`r.json()` call raised (caught by the enclosing
`try`), or it yielded a response with a success flag `ok`, an optional
`response` text field, and — when `json.loads` is reached — the parse result
of the stripped text (`none` when `json.loads` raised). -/

/-- A parsed JSON value, as produced by `json.loads`. -/
inductive Json where
  | null
  | bool (b : Bool)
  | num (n : Int)
  | str (s : String)
  | arr (elems : List Json)
  | obj (fields : List (String × Json))

/-- Python's `key in parsed` / `parsed[key]` on a JSON object: the first
binding of `key`, if any. -/
def Json.getKey? (j : Json) (key : String) : Option Json :=
  match j with
  | .obj fields => fields.lookup key
  | _ => Option.none

/-- The outcome of the single HTTP call made by the adapter. -/
inductive OllamaOutcome where
  | transportError
  | response (ok : Bool) (responseField : Option String) (parseResult : Option Json)

/-- `ollama_generate_structured` (lines 397-464), as a function of the HTTP
outcome: `None` on transport error, non-success status, empty stripped body,
unparseable body, non-dict JSON, or missing `risk_level_summary` /
`seven_day_plan`-dict keys; otherwise the parsed object. -/
def ollama_generate_structured (outcome : OllamaOutcome) : Option Json :=
  match outcome with
  | .transportError => Option.none
  | .response ok responseField parseResult =>
    if !ok then Option.none
    else
      let raw := (responseField.getD "").trim
      if raw = "" then Option.none
      else
        match parseResult with
        | Option.none => Option.none
        | Option.some parsed =>
          match parsed with
          | .obj fields =>
            match (Json.obj fields).getKey? "risk_level_summary" with
            | Option.none => Option.none
            | Option.some _ =>
              match (Json.obj fields).getKey? "seven_day_plan" with
              | Option.some (.obj _) => Option.some (Json.obj fields)
              | _ => Option.none
          | _ => Option.none

/-! ### The coach orchestrator (`ai_coach`, lines 487-517)

`ai_coach` first scores the request, then attempts the adapter; a truthy
adapter result is strictly validated into `AICoachStructured`
(`AICoachStructured(**structured_dict)`), and any failure of either step
falls back to `build_fallback_structured`.  The embedding abstracts the two
environment-dependent steps as parameters: `adapterResult` (the adapter's
`Optional[Dict]`; the adapter never returns an empty — falsy — dict, so
Python's truthiness test is `Option.isSome`) and `construct`, the strict
pydantic construction, which either yields a plan or fails.  The database
write is a fire-and-forget side effect outside the core. -/

/-- The `mode` literal of `AICoachResponse`. -/
inductive CoachMode where
  | ollama | fallback
  deriving DecidableEq, Repr

/-- Default `OLLAMA_MODEL` configuration value (line 31). -/
def OLLAMA_MODEL : String := "llama3.1:8b"

/-- `AICoachResponse` (lines 131-135). -/
structure AICoachResponse where
  mode : CoachMode
  model_used : String
  coach : AICoachStructured
  raw_text : Option String
  deriving DecidableEq, Repr

/-- `ai_coach` (lines 487-517), parameterized by the adapter outcome and the
strict construction step. `dump d` stands for `json.dumps(structured_dict)`. -/
def ai_coach {α : Type} (req : AssessmentRequest) (adapterResult : Option α)
    (construct : α → Option AICoachStructured) (dump : α → String) : AICoachResponse :=
  let resp := calculate_risk_and_advice req
  match adapterResult with
  | Option.some d =>
    match construct d with
    | Option.some coach =>
      { mode := .ollama, model_used := OLLAMA_MODEL, coach := coach,
        raw_text := Option.some (dump d) }
    | Option.none =>
      { mode := .fallback, model_used := OLLAMA_MODEL,
        coach := build_fallback_structured req resp, raw_text := Option.none }
  | Option.none =>
    { mode := .fallback, model_used := OLLAMA_MODEL,
      coach := build_fallback_structured req resp, raw_text := Option.none }

/-! ### Helper lemmas -/

theorem painPoints_nonneg (req : AssessmentRequest) : 0 ≤ painPoints req := by
  unfold painPoints; split_ifs <;> norm_num

theorem volumePoints_nonneg (req : AssessmentRequest) : 0 ≤ volumePoints req := by
  unfold volumePoints; split_ifs <;> norm_num

theorem intensityPoints_nonneg (req : AssessmentRequest) : 0 ≤ intensityPoints req := by
  unfold intensityPoints; split_ifs <;> norm_num

theorem sleepPoints_nonneg (req : AssessmentRequest) : 0 ≤ sleepPoints req := by
  unfold sleepPoints; split_ifs <;> norm_num

theorem restPoints_nonneg (req : AssessmentRequest) : 0 ≤ restPoints req := by
  unfold restPoints; split_ifs <;> norm_num

theorem experiencePoints_nonneg (req : AssessmentRequest) : 0 ≤ experiencePoints req := by
  unfold experiencePoints; split_ifs <;> norm_num

theorem preClampScore_nonneg (req : AssessmentRequest) : 0 ≤ preClampScore req := by
  have h1 := painPoints_nonneg req
  have h2 := volumePoints_nonneg req
  have h3 := intensityPoints_nonneg req
  have h4 := sleepPoints_nonneg req
  have h5 := restPoints_nonneg req
  have h6 := experiencePoints_nonneg req
  unfold preClampScore; omega

theorem risk_score_eq_clamp (req : AssessmentRequest) :
    (calculate_risk_and_advice req).risk_score = max 0 (min 100 (preClampScore req)) := rfl

theorem risk_level_eq_band (req : AssessmentRequest) :
    (calculate_risk_and_advice req).risk_level =
      (if max 0 (min 100 (preClampScore req)) ≥ 70 then RiskLevel.high
       else if max 0 (min 100 (preClampScore req)) ≥ 35 then RiskLevel.moderate
       else RiskLevel.low) := rfl

/-- A fixed valid request used to instantiate universally quantified theorems
(the spec's Scenario 3 input). -/
def sampleReq : AssessmentRequest :=
  { training_days_per_week := 6, session_minutes := 60, rpe := 9, weekly_sets := 130,
    rest_days_per_week := 1, sleep_hours := 5, pain_score := 0,
    pain_location := PainLocation.none, experience_level := ExperienceLevel.beginner }

/-! ### Claim theorems -/

/-- C1: for every valid `AssessmentRequest`, `calculate_risk_and_advice`
returns `0 ≤ risk_score ≤ 100`, and `risk_level` is exactly the step function
of the clamped score: `high` iff `score ≥ 70`, `moderate` iff `35 ≤ score < 70`,
`low` iff `score < 35` (the boundaries 35 and 70 belong to the higher band). -/
theorem risk_score_range_and_level_bands (req : AssessmentRequest) (_h : req.Valid) :
    0 ≤ (calculate_risk_and_advice req).risk_score ∧
    (calculate_risk_and_advice req).risk_score ≤ 100 ∧
    ((calculate_risk_and_advice req).risk_level = RiskLevel.high ↔
      70 ≤ (calculate_risk_and_advice req).risk_score) ∧
    ((calculate_risk_and_advice req).risk_level = RiskLevel.moderate ↔
      35 ≤ (calculate_risk_and_advice req).risk_score ∧
        (calculate_risk_and_advice req).risk_score < 70) ∧
    ((calculate_risk_and_advice req).risk_level = RiskLevel.low ↔
      (calculate_risk_and_advice req).risk_score < 35) := by
  rw [risk_score_eq_clamp, risk_level_eq_band]
  have h0 : (0 : Int) ≤ max 0 (min 100 (preClampScore req)) := le_max_left 0 _
  have h100 : max 0 (min 100 (preClampScore req)) ≤ 100 :=
    max_le (by norm_num) (min_le_left _ _)
  refine ⟨h0, h100, ?_, ?_, ?_⟩ <;> split_ifs with h1 h2 <;> simp <;> omega

/-- C1 witness: the theorem instantiated at the concrete Scenario-3 request. -/
theorem risk_score_range_and_level_bands_witness :
    0 ≤ (calculate_risk_and_advice sampleReq).risk_score ∧
    (calculate_risk_and_advice sampleReq).risk_score ≤ 100 ∧
    ((calculate_risk_and_advice sampleReq).risk_level = RiskLevel.high ↔
      70 ≤ (calculate_risk_and_advice sampleReq).risk_score) ∧
    ((calculate_risk_and_advice sampleReq).risk_level = RiskLevel.moderate ↔
      35 ≤ (calculate_risk_and_advice sampleReq).risk_score ∧
        (calculate_risk_and_advice sampleReq).risk_score < 70) ∧
    ((calculate_risk_and_advice sampleReq).risk_level = RiskLevel.low ↔
      (calculate_risk_and_advice sampleReq).risk_score < 35) :=
  risk_score_range_and_level_bands sampleReq (by decide)

/-- C2: the `score_breakdown` has exactly the six keys `pain`, `volume`,
`intensity`, `sleep`, `rest`, `experience` in that order, every value is a
non-negative integer, the values sum to the pre-clamp score, and that sum
equals the reported `risk_score` whenever the pre-clamp score is ≤ 100. -/
theorem score_breakdown_spec (req : AssessmentRequest) (_h : req.Valid) :
    (calculate_risk_and_advice req).score_breakdown.map Prod.fst =
      ["pain", "volume", "intensity", "sleep", "rest", "experience"] ∧
    (∀ p ∈ (calculate_risk_and_advice req).score_breakdown, 0 ≤ p.2) ∧
    ((calculate_risk_and_advice req).score_breakdown.map Prod.snd).sum =
      preClampScore req ∧
    (preClampScore req ≤ 100 →
      (calculate_risk_and_advice req).risk_score = preClampScore req) := by
  refine ⟨rfl, ?_, ?_, ?_⟩
  · intro p hp
    have hb : (calculate_risk_and_advice req).score_breakdown =
        [("pain", painPoints req), ("volume", volumePoints req),
         ("intensity", intensityPoints req), ("sleep", sleepPoints req),
         ("rest", restPoints req), ("experience", experiencePoints req)] := rfl
    rw [hb] at hp
    simp only [List.mem_cons, List.not_mem_nil, or_false] at hp
    rcases hp with rfl | rfl | rfl | rfl | rfl | rfl
    · exact painPoints_nonneg req
    · exact volumePoints_nonneg req
    · exact intensityPoints_nonneg req
    · exact sleepPoints_nonneg req
    · exact restPoints_nonneg req
    · exact experiencePoints_nonneg req
  · show painPoints req + (volumePoints req + (intensityPoints req +
      (sleepPoints req + (restPoints req + (experiencePoints req + 0))))) =
        preClampScore req
    unfold preClampScore; ring
  · intro hle
    rw [risk_score_eq_clamp]
    have h0 := preClampScore_nonneg req
    rw [min_eq_right hle, max_eq_right h0]

/-- C2 witness: the theorem instantiated at the concrete Scenario-3 request. -/
theorem score_breakdown_spec_witness :
    (calculate_risk_and_advice sampleReq).score_breakdown.map Prod.fst =
      ["pain", "volume", "intensity", "sleep", "rest", "experience"] ∧
    (∀ p ∈ (calculate_risk_and_advice sampleReq).score_breakdown, 0 ≤ p.2) ∧
    ((calculate_risk_and_advice sampleReq).score_breakdown.map Prod.snd).sum =
      preClampScore sampleReq ∧
    (preClampScore sampleReq ≤ 100 →
      (calculate_risk_and_advice sampleReq).risk_score = preClampScore sampleReq) :=
  score_breakdown_spec sampleReq (by decide)

/-- C5: any valid request with `weekly_sets = 130`, `rpe = 9`,
`sleep_hours = 5`, `rest_days_per_week = 1`, `training_days_per_week = 6`,
`pain_score = 0` and beginner experience (any in-range `session_minutes`, any
`pain_location`) scores `20+18+12+10+8 = 68` with level `moderate`. -/
theorem scenario3_score_68_moderate (req : AssessmentRequest) (_h : req.Valid)
    (h1 : req.weekly_sets = 130) (h2 : req.rpe = 9) (h3 : req.sleep_hours = 5)
    (h4 : req.rest_days_per_week = 1) (h5 : req.training_days_per_week = 6)
    (h6 : req.pain_score = 0) (h7 : req.experience_level = ExperienceLevel.beginner) :
    (calculate_risk_and_advice req).risk_score = 68 ∧
    (calculate_risk_and_advice req).risk_level = RiskLevel.moderate := by
  have hpre : preClampScore req = 68 := by
    unfold preClampScore painPoints volumePoints intensityPoints sleepPoints
      restPoints experiencePoints
    rw [h1, h2, h3, h4, h5, h6, h7]
    norm_num
  constructor
  · rw [risk_score_eq_clamp, hpre]; norm_num
  · rw [risk_level_eq_band, hpre]; norm_num

/-- C5 witness: the theorem instantiated at the concrete Scenario-3 request. -/
theorem scenario3_score_68_moderate_witness :
    (calculate_risk_and_advice sampleReq).risk_score = 68 ∧
    (calculate_risk_and_advice sampleReq).risk_level = RiskLevel.moderate :=
  scenario3_score_68_moderate sampleReq (by decide) rfl rfl rfl rfl rfl rfl rfl

/-! ### Factor-list lemmas for the top-factors claim -/

theorem painFactor_eq_nil (req : AssessmentRequest) :
    painFactor req = [] ↔ ¬(1 ≤ req.pain_score) := by
  unfold painFactor; split_ifs with h1 h2 h3 <;> simp <;> omega

theorem volumeFactor_eq_nil (req : AssessmentRequest) :
    volumeFactor req = [] ↔ ¬(80 ≤ req.weekly_sets) := by
  unfold volumeFactor; split_ifs with h1 h2 <;> simp <;> omega

theorem intensityFactor_eq_nil (req : AssessmentRequest) :
    intensityFactor req = [] ↔ ¬(7 ≤ req.rpe) := by
  unfold intensityFactor; split_ifs with h1 h2 <;> simp <;> omega

theorem sleepFactor_eq_nil (req : AssessmentRequest) :
    sleepFactor req = [] ↔ ¬(req.sleep_hours < 7) := by
  unfold sleepFactor; split_ifs with h1 h2 <;> simp <;> linarith

theorem restFactor_eq_nil (req : AssessmentRequest) :
    restFactor req = [] ↔
      ¬(req.rest_days_per_week ≤ 1 ∧ 5 ≤ req.training_days_per_week) := by
  unfold restFactor; split_ifs with h1 <;> simp_all

theorem experienceFactor_eq_nil (req : AssessmentRequest) :
    experienceFactor req = [] ↔
      ¬(req.experience_level = ExperienceLevel.beginner ∧ 8 ≤ req.rpe) := by
  unfold experienceFactor; split_ifs with h1 <;> simp_all

theorem sentinel_not_mem_painFactor (req : AssessmentRequest) :
    noFactorsSentinel ∉ painFactor req := by
  unfold painFactor; split_ifs <;> decide

theorem sentinel_not_mem_volumeFactor (req : AssessmentRequest) :
    noFactorsSentinel ∉ volumeFactor req := by
  unfold volumeFactor; split_ifs <;> decide

theorem sentinel_not_mem_intensityFactor (req : AssessmentRequest) :
    noFactorsSentinel ∉ intensityFactor req := by
  unfold intensityFactor; split_ifs <;> decide

theorem sentinel_not_mem_sleepFactor (req : AssessmentRequest) :
    noFactorsSentinel ∉ sleepFactor req := by
  unfold sleepFactor; split_ifs <;> decide

theorem sentinel_not_mem_restFactor (req : AssessmentRequest) :
    noFactorsSentinel ∉ restFactor req := by
  unfold restFactor; split_ifs <;> decide

theorem sentinel_not_mem_experienceFactor (req : AssessmentRequest) :
    noFactorsSentinel ∉ experienceFactor req := by
  unfold experienceFactor; split_ifs <;> decide

theorem sentinel_not_mem_factorsList (req : AssessmentRequest) :
    noFactorsSentinel ∉ factorsList req := by
  unfold factorsList
  simp only [List.mem_append, not_or]
  exact ⟨⟨⟨⟨⟨sentinel_not_mem_painFactor req, sentinel_not_mem_volumeFactor req⟩,
    sentinel_not_mem_intensityFactor req⟩, sentinel_not_mem_sleepFactor req⟩,
    sentinel_not_mem_restFactor req⟩, sentinel_not_mem_experienceFactor req⟩

theorem top_factors_eq (req : AssessmentRequest) :
    (calculate_risk_and_advice req).top_factors =
      (if factorsList req = [] then [noFactorsSentinel]
       else (factorsList req).take 3) := rfl

/-- C6: `top_factors` has length at most 3, is the first three factor strings
in category evaluation order whenever any category fired, and equals the
single-element sentinel list iff zero scoring categories fired. -/
theorem top_factors_spec (req : AssessmentRequest) (_h : req.Valid) :
    (calculate_risk_and_advice req).top_factors.length ≤ 3 ∧
    (factorsList req ≠ [] →
      (calculate_risk_and_advice req).top_factors = (factorsList req).take 3) ∧
    ((calculate_risk_and_advice req).top_factors = [noFactorsSentinel] ↔
      ¬(1 ≤ req.pain_score) ∧ ¬(80 ≤ req.weekly_sets) ∧ ¬(7 ≤ req.rpe) ∧
      ¬(req.sleep_hours < 7) ∧
      ¬(req.rest_days_per_week ≤ 1 ∧ 5 ≤ req.training_days_per_week) ∧
      ¬(req.experience_level = ExperienceLevel.beginner ∧ 8 ≤ req.rpe)) := by
  rw [top_factors_eq]
  by_cases hf : factorsList req = []
  · rw [if_pos hf]
    have hnil : painFactor req = [] ∧ volumeFactor req = [] ∧
        intensityFactor req = [] ∧ sleepFactor req = [] ∧
        restFactor req = [] ∧ experienceFactor req = [] := by
      have hx := hf
      unfold factorsList at hx
      simp only [List.append_eq_nil] at hx
      tauto
    refine ⟨by norm_num, fun hc => absurd hf hc, ?_, fun _ => rfl⟩
    intro _
    exact ⟨(painFactor_eq_nil req).mp hnil.1, (volumeFactor_eq_nil req).mp hnil.2.1,
      (intensityFactor_eq_nil req).mp hnil.2.2.1,
      (sleepFactor_eq_nil req).mp hnil.2.2.2.1,
      (restFactor_eq_nil req).mp hnil.2.2.2.2.1,
      (experienceFactor_eq_nil req).mp hnil.2.2.2.2.2⟩
  · rw [if_neg hf]
    refine ⟨List.length_take_le _ _, fun _ => rfl, ?_, ?_⟩
    · intro htop
      exfalso
      apply sentinel_not_mem_factorsList req
      apply List.take_subset 3 (factorsList req)
      rw [htop]
      exact List.mem_singleton_self _
    · intro hconds
      exfalso
      apply hf
      unfold factorsList
      rw [(painFactor_eq_nil req).mpr hconds.1, (volumeFactor_eq_nil req).mpr hconds.2.1,
        (intensityFactor_eq_nil req).mpr hconds.2.2.1,
        (sleepFactor_eq_nil req).mpr hconds.2.2.2.1,
        (restFactor_eq_nil req).mpr hconds.2.2.2.2.1,
        (experienceFactor_eq_nil req).mpr hconds.2.2.2.2.2]
      rfl

/-- C6 witness: the theorem instantiated at the concrete Scenario-3 request. -/
theorem top_factors_spec_witness :
    (calculate_risk_and_advice sampleReq).top_factors.length ≤ 3 ∧
    (factorsList sampleReq ≠ [] →
      (calculate_risk_and_advice sampleReq).top_factors = (factorsList sampleReq).take 3) ∧
    ((calculate_risk_and_advice sampleReq).top_factors = [noFactorsSentinel] ↔
      ¬(1 ≤ sampleReq.pain_score) ∧ ¬(80 ≤ sampleReq.weekly_sets) ∧
      ¬(7 ≤ sampleReq.rpe) ∧ ¬(sampleReq.sleep_hours < 7) ∧
      ¬(sampleReq.rest_days_per_week ≤ 1 ∧ 5 ≤ sampleReq.training_days_per_week) ∧
      ¬(sampleReq.experience_level = ExperienceLevel.beginner ∧ 8 ≤ sampleReq.rpe)) :=
  top_factors_spec sampleReq (by decide)

/-! ### Recommendation lemmas -/

theorem if_singleton_eq_nil {c : Prop} [Decidable c] (s : String) :
    (if c then [s] else ([] : List String)) = [] ↔ ¬c := by
  split_ifs with h <;> simp [h]

theorem maintain_ne_reduce_load (loc : PainLocation) :
    maintainRec ≠ "Reduce load on the " ++ replaceUnderscores loc.str ++
      " and prioritize technique." := by
  cases loc <;> decide

theorem maintain_not_mem_gated (req : AssessmentRequest) :
    maintainRec ∉ gatedRecommendations req := by
  unfold gatedRecommendations
  simp only [List.mem_append, not_or]
  refine ⟨⟨⟨⟨⟨?_, ?_⟩, ?_⟩, ?_⟩, ?_⟩, ?_⟩
  · split_ifs <;> decide
  · split_ifs with hg
    · simp only [List.mem_singleton]
      exact maintain_ne_reduce_load req.pain_location
    · decide
  · split_ifs <;> decide
  · split_ifs <;> decide
  · split_ifs <;> decide
  · split_ifs <;> decide

theorem gatedRecommendations_eq_nil (req : AssessmentRequest) :
    gatedRecommendations req = [] ↔
      ¬(7 ≤ req.pain_score) ∧
      ¬(req.pain_location ≠ PainLocation.none ∧ 4 ≤ req.pain_score) ∧
      ¬(80 ≤ req.weekly_sets) ∧ ¬(8 ≤ req.rpe) ∧ ¬(req.sleep_hours < 7) ∧
      ¬(req.rest_days_per_week ≤ 1 ∧ 5 ≤ req.training_days_per_week) := by
  unfold gatedRecommendations
  simp only [List.append_eq_nil, if_singleton_eq_nil]
  tauto

/-- C7: the recommendations list is never empty, and equals the single
maintenance fallback iff none of the six gating conditions fired. -/
theorem recommendations_spec (req : AssessmentRequest) (_h : req.Valid) :
    (calculate_risk_and_advice req).recommendations ≠ [] ∧
    ((calculate_risk_and_advice req).recommendations = [maintainRec] ↔
      ¬(7 ≤ req.pain_score) ∧
      ¬(req.pain_location ≠ PainLocation.none ∧ 4 ≤ req.pain_score) ∧
      ¬(80 ≤ req.weekly_sets) ∧ ¬(8 ≤ req.rpe) ∧ ¬(req.sleep_hours < 7) ∧
      ¬(req.rest_days_per_week ≤ 1 ∧ 5 ≤ req.training_days_per_week)) := by
  have hrecs : (calculate_risk_and_advice req).recommendations =
      recommendationsList req := rfl
  rw [hrecs]
  unfold recommendationsList
  by_cases hg : gatedRecommendations req = []
  · rw [if_pos hg]
    refine ⟨by simp, fun _ => (gatedRecommendations_eq_nil req).mp hg, fun _ => rfl⟩
  · rw [if_neg hg]
    refine ⟨hg, ?_, ?_⟩
    · intro heq
      exfalso
      apply maintain_not_mem_gated req
      rw [heq]
      exact List.mem_singleton_self _
    · intro hconds
      exact absurd ((gatedRecommendations_eq_nil req).mpr hconds) hg

/-- C7 witness: the theorem instantiated at the concrete Scenario-3 request. -/
theorem recommendations_spec_witness :
    (calculate_risk_and_advice sampleReq).recommendations ≠ [] ∧
    ((calculate_risk_and_advice sampleReq).recommendations = [maintainRec] ↔
      ¬(7 ≤ sampleReq.pain_score) ∧
      ¬(sampleReq.pain_location ≠ PainLocation.none ∧ 4 ≤ sampleReq.pain_score) ∧
      ¬(80 ≤ sampleReq.weekly_sets) ∧ ¬(8 ≤ sampleReq.rpe) ∧
      ¬(sampleReq.sleep_hours < 7) ∧
      ¬(sampleReq.rest_days_per_week ≤ 1 ∧ 5 ≤ sampleReq.training_days_per_week)) :=
  recommendations_spec sampleReq (by decide)

/-- C3: whenever the adapter returns no result, or its dictionary fails strict
`AICoachStructured` construction, the orchestrator reports mode `fallback` and
returns exactly `build_fallback_structured` of the same input and the risk
result computed for it; the adapter path never surfaces an error (the
orchestrator is total and always yields a plan). -/
theorem ai_coach_fallback_on_adapter_failure (α : Type) (req : AssessmentRequest)
    (adapterResult : Option α) (construct : α → Option AICoachStructured)
    (dump : α → String)
    (h : adapterResult = Option.none ∨
      ∃ d, adapterResult = Option.some d ∧ construct d = Option.none) :
    (ai_coach req adapterResult construct dump).mode = CoachMode.fallback ∧
    (ai_coach req adapterResult construct dump).coach =
      build_fallback_structured req (calculate_risk_and_advice req) := by
  rcases h with rfl | ⟨d, rfl, hc⟩
  · exact ⟨rfl, rfl⟩
  · simp [ai_coach, hc]

/-- C3 witness: the theorem instantiated with a failing adapter result. -/
theorem ai_coach_fallback_on_adapter_failure_witness :
    (ai_coach sampleReq (Option.none : Option Unit)
      (fun _ => Option.none) (fun _ => "")).mode = CoachMode.fallback ∧
    (ai_coach sampleReq (Option.none : Option Unit)
      (fun _ => Option.none) (fun _ => "")).coach =
      build_fallback_structured sampleReq (calculate_risk_and_advice sampleReq) :=
  ai_coach_fallback_on_adapter_failure Unit sampleReq Option.none
    (fun _ => Option.none) (fun _ => "") (Or.inl rfl)

/-- C4: the adapter is total over every HTTP outcome (it never propagates an
exception: transport errors are a constructor of its input, absorbed by the
enclosing `try`), and it yields a parsed structure exactly when the call
succeeded with a non-empty stripped body that parsed to a JSON object carrying
a `risk_level_summary` key and a `seven_day_plan` key whose value is an
object; on every other path it returns the no-result signal `none`. -/
theorem ollama_adapter_some_iff_checks_pass (outcome : OllamaOutcome) (j : Json) :
    ollama_generate_structured outcome = Option.some j ↔
      ∃ rf pr, outcome = OllamaOutcome.response true rf pr ∧
        (rf.getD "").trim ≠ "" ∧ pr = Option.some j ∧
        (∃ fields, j = Json.obj fields) ∧
        (∃ v, j.getKey? "risk_level_summary" = Option.some v) ∧
        (∃ g, j.getKey? "seven_day_plan" = Option.some (Json.obj g)) := by
  constructor
  · intro h
    cases outcome with
    | transportError => simp [ollama_generate_structured] at h
    | response ok rf pr =>
      cases ok with
      | false => simp [ollama_generate_structured] at h
      | true =>
        by_cases hraw : (rf.getD "").trim = ""
        · simp [ollama_generate_structured, hraw] at h
        · cases pr with
          | none => simp [ollama_generate_structured, hraw] at h
          | some parsed =>
            cases parsed with
            | null => simp [ollama_generate_structured, hraw] at h
            | bool b => simp [ollama_generate_structured, hraw] at h
            | num n => simp [ollama_generate_structured, hraw] at h
            | str s => simp [ollama_generate_structured, hraw] at h
            | arr xs => simp [ollama_generate_structured, hraw] at h
            | obj fields =>
              rcases hk : (Json.obj fields).getKey? "risk_level_summary" with _ | v
              · simp [ollama_generate_structured, hraw, hk] at h
              · rcases hk2 : (Json.obj fields).getKey? "seven_day_plan" with _ | w
                · simp [ollama_generate_structured, hraw, hk, hk2] at h
                · cases w with
                  | obj g =>
                    have hj : Json.obj fields = j := by
                      simpa [ollama_generate_structured, hraw, hk, hk2] using h
                    subst hj
                    exact ⟨rf, Option.some (Json.obj fields), rfl, hraw, rfl,
                      ⟨fields, rfl⟩, ⟨v, hk⟩, ⟨g, hk2⟩⟩
                  | null => simp [ollama_generate_structured, hraw, hk, hk2] at h
                  | bool b => simp [ollama_generate_structured, hraw, hk, hk2] at h
                  | num n => simp [ollama_generate_structured, hraw, hk, hk2] at h
                  | str s => simp [ollama_generate_structured, hraw, hk, hk2] at h
                  | arr xs => simp [ollama_generate_structured, hraw, hk, hk2] at h
  · rintro ⟨rf, pr, rfl, hraw, rfl, ⟨fields, rfl⟩, ⟨v, hk⟩, ⟨g, hk2⟩⟩
    simp [ollama_generate_structured, hraw, hk, hk2]

/-- C8: `build_fallback_structured` is deterministic and pure: in this
side-effect-free embedding two calls with identical `(input, result)`
arguments are the same value, so their outputs are structurally identical. -/
theorem build_fallback_structured_deterministic (req : AssessmentRequest)
    (resp : AssessmentResponse) :
    build_fallback_structured req resp = build_fallback_structured req resp := rfl

/-- C9: the `add` bucket of the fallback plan is exactly three entries: the
tier's rest-day note, then (inserted at index 1) the sleep-conditional string
— one wording below 7 hours, a different wording at or above — then the fixed
mobility string. -/
theorem fallback_add_bucket_spec (req : AssessmentRequest) (resp : AssessmentResponse) :
    (build_fallback_structured req resp).seven_day_plan.lookup "add" =
      Option.some [(tierParams resp.risk_level).2.2,
        (if req.sleep_hours < 7 then "Sleep goal: 7–9 hours (even +45–60 minutes helps)"
         else "Keep sleep consistent; avoid large late-night variability"),
        "Add 10 minutes mobility/activation after training (hips/shoulders/core)"] ∧
    ("Sleep goal: 7–9 hours (even +45–60 minutes helps)" ≠
      "Keep sleep consistent; avoid large late-night variability") := by
  constructor
  · simp only [build_fallback_structured]
    split_ifs <;> rfl
  · decide

/-- C10: `session_minutes` never influences the risk result or the fallback
plan: two valid requests equal in every other field produce identical
`calculate_risk_and_advice` responses, and identical fallback plans for the
same risk result. -/
theorem session_minutes_noninterference (r s : AssessmentRequest)
    (resp : AssessmentResponse) (hv1 : r.Valid) (hv2 : s.Valid)
    (h1 : r.training_days_per_week = s.training_days_per_week)
    (h2 : r.rpe = s.rpe) (h3 : r.weekly_sets = s.weekly_sets)
    (h4 : r.rest_days_per_week = s.rest_days_per_week)
    (h5 : r.sleep_hours = s.sleep_hours) (h6 : r.pain_score = s.pain_score)
    (h7 : r.pain_location = s.pain_location)
    (h8 : r.experience_level = s.experience_level) :
    calculate_risk_and_advice r = calculate_risk_and_advice s ∧
    build_fallback_structured r resp = build_fallback_structured s resp := by
  obtain ⟨a1, a2, a3, a4, a5, a6, a7, a8, a9⟩ := r
  obtain ⟨b1, b2, b3, b4, b5, b6, b7, b8, b9⟩ := s
  dsimp only at h1 h2 h3 h4 h5 h6 h7 h8
  subst h1 h2 h3 h4 h5 h6 h7 h8
  exact ⟨rfl, rfl⟩

/-- A copy of the sample request differing only in `session_minutes`. -/
def sampleReq2 : AssessmentRequest := { sampleReq with session_minutes := 90 }

/-- C10 witness: the theorem instantiated at two concrete requests that differ
only in `session_minutes`. -/
theorem session_minutes_noninterference_witness :
    calculate_risk_and_advice sampleReq = calculate_risk_and_advice sampleReq2 ∧
    build_fallback_structured sampleReq (calculate_risk_and_advice sampleReq) =
      build_fallback_structured sampleReq2 (calculate_risk_and_advice sampleReq) :=
  session_minutes_noninterference sampleReq sampleReq2
    (calculate_risk_and_advice sampleReq) (by decide) (by decide)
    rfl rfl rfl rfl rfl rfl rfl rfl

end InjuryDSS
